import Mathlib

/-!
Verification of the WanderLust-AI orchestration core (src/main.py) against its
natural-language specification.

Shallow embedding conventions:
* External services (the Nominatim geocoder, geodesic distance, the three
  language models) are black-box oracles supplied as function-valued parameters;
  the embedded code is exactly the Python control flow around them.
* A geocoder call that raises is modelled with `Except Unit`; the `try/except`
  wrapper of `query_places_nominatim` maps any error to the empty list,
  mirroring `except Exception: return []`.
* `geolocator.geocode(query, exactly_one=False, limit=5)` is modelled as the
  full ordered candidate list of the geocoder cut to its first 5 elements
  (`List.take 5`), which is the documented meaning of `limit=5`.
* Python truthiness of `Optional[str]` values (`None` and `""` falsy) is
  `pyTruthy`.
* Coordinates, distances and importance scores are `Rat`; the claims under
  check depend only on order comparisons (`importance > 0.75`,
  `dist <= radius_limit`), never on float rounding.
-/

namespace WanderLust

/-- A geocoder hit: `geopy` `Location` with the fields the code reads
(`latitude`, `longitude`, `address`, `raw.get "importance"`). -/
structure GeoLoc where
  latitude : Rat
  longitude : Rat
  address : String
  importance : Option Rat
deriving DecidableEq, Repr

/-- The place record built by `query_places_nominatim`
(`{"name": query, "address": ..., "coordinates": [lon, lat]}`). -/
structure Place where
  name : String
  address : String
  coordinates : List Rat
deriving DecidableEq, Repr

/-- The external geodata services: single-result geocoding
(`geolocator.geocode q`), multi-result geocoding
(`geolocator.geocode q (exactly_one := False)` modelled as the full ordered
candidate list, `none` when the provider finds nothing), and geodesic
distance in km. `Except Unit` models a raised exception. -/
structure GeoEnv where
  geocodeOne : String → Except Unit (Option GeoLoc)
  geocodeMany : String → Except Unit (Option (List GeoLoc))
  dist : Rat × Rat → Rat × Rat → Rat

/-- Dynamic radius logic of `query_places_nominatim` (src/main.py lines
68-73): importance above 0.75 (= `mkRat 3 4`) means megacity (30 km),
otherwise regional hub (200 km). -/
def radiusLimit (importance : Rat) : Rat :=
  if importance > mkRat 3 4 then 30 else 200

/-- The distance check of the global-search fallback
(`dist <= radius_limit`, src/main.py line 93). -/
def withinRadius (env : GeoEnv) (city_coords : Rat × Rat) (radius_limit : Rat)
    (c : GeoLoc) : Bool :=
  decide (env.dist city_coords (c.latitude, c.longitude) ≤ radius_limit)

/-- The place record returned for an accepted location
(src/main.py lines 104-108). -/
def mkPlace (query : String) (l : GeoLoc) : Place :=
  { name := query, address := l.address,
    coordinates := [l.longitude, l.latitude] }

/-- Body of the `try` block of `query_places_nominatim` (src/main.py lines
54-108): anchor-city geocode, importance classification, strict search for
`query ++ ", " ++ location_name`, then the global-search fallback scanning at
most 5 candidates (the `limit=5` cut) for the first one within the radius.
An `.error` at any geocoder call aborts the whole body, exactly as a raised
exception leaves the Python `try` block. -/
def queryPlacesCore (env : GeoEnv) (query location_name : String) :
    Except Unit (List Place) :=
  match env.geocodeOne location_name with
  | .error e => .error e
  | .ok none => .ok []
  | .ok (some city_loc) =>
    let city_coords := (city_loc.latitude, city_loc.longitude)
    let importance := city_loc.importance.getD (mkRat 1 2)
    let radius_limit := radiusLimit importance
    match env.geocodeOne (query ++ ", " ++ location_name) with
    | .error e => .error e
    | .ok (some place_loc) => .ok [mkPlace query place_loc]
    | .ok none =>
      match env.geocodeMany query with
      | .error e => .error e
      | .ok none => .ok []
      | .ok (some cands) =>
        match (cands.take 5).find? (withinRadius env city_coords radius_limit) with
        | none => .ok []
        | some place_loc => .ok [mkPlace query place_loc]

/-- The `query_places_nominatim` tool: the `try` body with
`except Exception: return []` around it. -/
def query_places_nominatim (env : GeoEnv) (query location_name : String) :
    List Place :=
  match queryPlacesCore env query location_name with
  | .ok r => r
  | .error _ => []

/-- Python truthiness of an `Optional[str]`: `None` and `""` are falsy
(`if state.get("user_feedback"):` / `if request.place_to_avoid:`). -/
def pyTruthy : Option String → Bool
  | none => false
  | some s => !(s == "")

/-- `TravelGraphState` (src/main.py lines 140-148). -/
structure TravelGraphState where
  destination : String
  duration_days : Int
  vibe : String
  user_feedback : Option String
  places_to_avoid : List String
  keywords : List String
  search_results : List Place
  itinerary_draft : String
deriving DecidableEq, Repr

/-- The dict of state updates returned by a node: each field is `some v` when
the returned dict of the node contains that key, `none` when it does not. LangGraph
merges it into the running state by shallow field replacement. -/
structure StateUpdate where
  destination : Option String := none
  duration_days : Option Int := none
  vibe : Option String := none
  user_feedback : Option (Option String) := none
  places_to_avoid : Option (List String) := none
  keywords : Option (List String) := none
  search_results : Option (List Place) := none
  itinerary_draft : Option String := none
deriving Repr

/-- Shallow merge of the dict returned by a node into the state (LangGraph channel
update / `final_state.update(node_output)`): a present key replaces the field,
an absent key leaves it untouched. -/
def applyUpdate (s : TravelGraphState) (u : StateUpdate) : TravelGraphState where
  destination := u.destination.getD s.destination
  duration_days := u.duration_days.getD s.duration_days
  vibe := u.vibe.getD s.vibe
  user_feedback := u.user_feedback.getD s.user_feedback
  places_to_avoid := u.places_to_avoid.getD s.places_to_avoid
  keywords := u.keywords.getD s.keywords
  search_results := u.search_results.getD s.search_results
  itinerary_draft := u.itinerary_draft.getD s.itinerary_draft

/-- One tool call elected by the tool-invoking model:
`{"name": ..., "args": {"query": ..., "location_name": ...}}`. -/
structure ToolCallRec where
  tool : String
  query : String
  location_name : String
deriving DecidableEq, Repr

/-- The language-model oracles: the structured-output generator used by the
Keyword Synthesizer (prompt to keyword list), the tool-invoking generator used
by the Place Search Orchestrator (prompt to elected tool calls), and the plain
text generator used by the Itinerary Composer (prompt to content), plus the
geodata environment. -/
structure Oracles where
  geo : GeoEnv
  structuredKeywords : String → List String
  geminiToolCalls : String → List ToolCallRec
  heroText : String → String

/-- `target_count = max(10, state.duration_days * 4)` (src/main.py line 158). -/
def target_count (s : TravelGraphState) : Int :=
  max 10 (s.duration_days * 4)

/-- The Keyword Synthesizer prompt (src/main.py lines 160-175); list values
are rendered by joining with commas, the fixed strategy text is carried
verbatim in spirit. The interpolated values are exactly those of the source. -/
def vibePrompt (s : TravelGraphState) : String :=
  "You are an expert travel consultant. Destination: " ++ s.destination ++
  ". Trip Duration: " ++ toString s.duration_days ++ " days. Vibe: " ++ s.vibe ++
  ". Avoid: " ++ String.intercalate ", " s.places_to_avoid ++
  ". Task: Generate exactly " ++ toString (target_count s) ++
  " search terms. We need enough places to fill a " ++
  toString s.duration_days ++
  "-day itinerary. STRATEGY: Megacities: Return SPECIFIC NAMES. " ++
  "Smaller Regions or Cities: Return GENERIC CATEGORIES. Vary the categories."

/-- `vibe_interpreter_agent` (src/main.py lines 152-178): returns the
keyword list of the structured generator as-is under the `keywords` key. -/
def vibe_interpreter_agent (O : Oracles) (s : TravelGraphState) : StateUpdate :=
  { keywords := some (O.structuredKeywords (vibePrompt s)) }

/-- Python substring membership `sub in s`, via `splitOn`. -/
def strContains (s sub : String) : Bool :=
  (s.splitOn sub).length != 1

/-- The destination normalization of `search_agent` (src/main.py lines
183-186). -/
def location_fixed (destination : String) : String :=
  if strContains destination "London" && !(strContains destination "UK") then
    "London, UK"
  else destination

/-- The Place Search Orchestrator prompt (src/main.py lines 188-192). -/
def searchPrompt (loc : String) (kws : List String) : String :=
  "Find coordinates for these: " ++ String.intercalate ", " kws ++
  ". Use the tool Maps_nominatim. CRITICAL: You MUST pass " ++ loc ++
  " as the location_name argument for every call."

/-- The tool-call loop of `search_agent` (src/main.py lines 196-202): run
`query_places_nominatim` for every elected call named
`query_places_nominatim` and concatenate the returned lists in order. -/
def allToolPlaces (O : Oracles) : List ToolCallRec → List Place
  | [] => []
  | tc :: rest =>
    if tc.tool = "query_places_nominatim" then
      query_places_nominatim O.geo tc.query tc.location_name ++ allToolPlaces O rest
    else
      allToolPlaces O rest

/-- The deduplicate-and-filter loop of `search_agent` (src/main.py lines
204-210): keep a place when its name is neither in `seen` nor in
`places_to_avoid`, first occurrence wins. -/
def dedupeKeep (avoid : List String) : List Place → List String → List Place
  | [], _ => []
  | p :: rest, seen =>
    if p.name ∉ seen ∧ p.name ∉ avoid then
      p :: dedupeKeep avoid rest (p.name :: seen)
    else
      dedupeKeep avoid rest seen

/-- `search_agent` (src/main.py lines 180-212). -/
def search_agent (O : Oracles) (s : TravelGraphState) : StateUpdate :=
  let locf := location_fixed s.destination
  let calls := O.geminiToolCalls (searchPrompt locf s.keywords)
  let all_places := allToolPlaces O calls
  { search_results := some (dedupeKeep s.places_to_avoid all_places []) }

/-- Rendering of one place in the Itinerary Composer prompt (stands for the
`json.dumps` of the record). -/
def placeText (p : Place) : String :=
  "name: " ++ p.name ++ ", address: " ++ p.address ++ ", coordinates: " ++
  String.intercalate ", " (p.coordinates.map toString)

/-- The Itinerary Composer prompt (src/main.py lines 217-234). -/
def itineraryPrompt (s : TravelGraphState) : String :=
  "You are a professional travel itinerary curator for " ++ s.destination ++
  ". Context: Trip Duration: " ++ toString s.duration_days ++
  " days. Desired Vibe: " ++ s.vibe ++ ". Verified Locations Found: " ++
  String.intercalate "; " (s.search_results.map placeText) ++
  ". Your Task: Construct a logical, narrative-driven itinerary using ONLY " ++
  "the verified locations provided above. Clean Output, Logical Flow, " ++
  "Narrative tied to the " ++ s.vibe ++
  " vibe, Gaps filled with general activities, clean Markdown per Day."

/-- `itinerary_agent` (src/main.py lines 214-237). -/
def itinerary_agent (O : Oracles) (s : TravelGraphState) : StateUpdate :=
  { itinerary_draft := some (O.heroText (itineraryPrompt s)) }

/-- `await_feedback` (src/main.py lines 241-242): returns
`{"user_feedback": None}`. -/
def await_feedback (_s : TravelGraphState) : StateUpdate :=
  { user_feedback := some none }

/-- `check_feedback` (src/main.py lines 244-248): `true` routes to
`vibe_interpreter`, `false` routes to `END`. LangGraph evaluates it on the
state after the update of the source node has been applied. -/
def check_feedback (s : TravelGraphState) : Bool :=
  pyTruthy s.user_feedback

/-- The four graph nodes (src/main.py lines 250-254). -/
inductive Node
  | vibe_interpreter
  | search_agent
  | itinerary_agent
  | await_feedback
deriving DecidableEq, Repr

/-- Dispatch from node to node function. -/
def nodeOutput (O : Oracles) : Node → TravelGraphState → StateUpdate
  | .vibe_interpreter => vibe_interpreter_agent O
  | .search_agent => search_agent O
  | .itinerary_agent => itinerary_agent O
  | .await_feedback => await_feedback

/-- Run one node and merge its output into the state. -/
def stepNode (O : Oracles) (n : Node) (s : TravelGraphState) : TravelGraphState :=
  applyUpdate s (nodeOutput O n s)

/-- The graph edges (src/main.py lines 256-262): a fixed chain
`vibe_interpreter → search_agent → itinerary_agent → await_feedback`, then the
conditional edge driven by `check_feedback` on the post-update state; `none`
is `END`. -/
def nextNode : Node → TravelGraphState → Option Node
  | .vibe_interpreter, _ => some .search_agent
  | .search_agent, _ => some .itinerary_agent
  | .itinerary_agent, _ => some .await_feedback
  | .await_feedback, s => if check_feedback s then some .vibe_interpreter else none

/-- Fuelled execution of the compiled graph from a node, collecting the trace
of executed nodes and the final state; `none` means the fuel ran out before
`END` was reached. -/
def runFrom (O : Oracles) : Nat → Node → TravelGraphState →
    Option (List Node × TravelGraphState)
  | 0, _, _ => none
  | fuel + 1, n, s =>
    let s2 := stepNode O n s
    match nextNode n s2 with
    | none => some ([n], s2)
    | some n2 =>
      match runFrom O fuel n2 s2 with
      | none => none
      | some (tr, sf) => some (n :: tr, sf)

/-- `app.stream(state)` consumed to completion: run the graph from the entry
point `vibe_interpreter` (src/main.py lines 256, 264, 286, 301). -/
def runWorkflow (O : Oracles) (fuel : Nat) (s : TravelGraphState) :
    Option (List Node × TravelGraphState) :=
  runFrom O fuel .vibe_interpreter s

/-- `PlanRequest` (src/main.py lines 269-273). -/
structure PlanRequest where
  destination : String
  duration_days : Int
  vibe : String
  places_to_avoid : List String
deriving DecidableEq, Repr

/-- `ResumeRequest` (src/main.py lines 275-278). -/
structure ResumeRequest where
  current_state : TravelGraphState
  user_feedback : String
  place_to_avoid : Option String
deriving DecidableEq, Repr

/-- `start_plan` (src/main.py lines 280-291): seed the state with the request
fields and `user_feedback = "Start"`, stream the workflow, return the final
`itinerary_draft` and accumulated state. Fields the start request does not
carry begin empty; every one of them is written by a node before it is read. -/
def start_plan (O : Oracles) (fuel : Nat) (req : PlanRequest) :
    Option (String × TravelGraphState) :=
  let initial : TravelGraphState :=
    { destination := req.destination
      duration_days := req.duration_days
      vibe := req.vibe
      user_feedback := some "Start"
      places_to_avoid := req.places_to_avoid
      keywords := []
      search_results := []
      itinerary_draft := "" }
  match runWorkflow O fuel initial with
  | none => none
  | some (_, final) => some (final.itinerary_draft, final)

/-- `resume_plan` (src/main.py lines 293-306): set `user_feedback` from the
request, append `place_to_avoid` when truthy, stream the workflow. -/
def resume_plan (O : Oracles) (fuel : Nat) (req : ResumeRequest) :
    Option (String × TravelGraphState) :=
  let s0 : TravelGraphState :=
    { req.current_state with
      user_feedback := some req.user_feedback
      places_to_avoid :=
        if pyTruthy req.place_to_avoid then
          req.current_state.places_to_avoid ++ [req.place_to_avoid.getD ""]
        else
          req.current_state.places_to_avoid }
  match runWorkflow O fuel s0 with
  | none => none
  | some (_, final) => some (final.itinerary_draft, final)

/-- One full pass of the pipeline in the fixed node order. -/
def pipelinePass (O : Oracles) (s : TravelGraphState) : TravelGraphState :=
  stepNode O .await_feedback
    (stepNode O .itinerary_agent
      (stepNode O .search_agent
        (stepNode O .vibe_interpreter s)))

/-- The node trace of a single pass. -/
def singlePassTrace : List Node :=
  [.vibe_interpreter, .search_agent, .itinerary_agent, .await_feedback]

/-! Concrete instances used to evaluate the development on closed inputs. -/

/-- A geodata environment in which every lookup finds nothing. -/
def trivialGeo : GeoEnv where
  geocodeOne := fun _ => .ok none
  geocodeMany := fun _ => .ok none
  dist := fun _ _ => 0

/-- A fixed, fully concrete oracle bundle. -/
def demoOracles : Oracles where
  geo := trivialGeo
  structuredKeywords := fun _ => ["Quiet Beach", "Local Market"]
  geminiToolCalls := fun _ => []
  heroText := fun _ => "Day 1: stroll the old town."

/-- A fixed, fully concrete starting state with the start sentinel set. -/
def demoState : TravelGraphState where
  destination := "Paris"
  duration_days := 3
  vibe := "chill"
  user_feedback := some "Start"
  places_to_avoid := []
  keywords := []
  search_results := []
  itinerary_draft := ""

/-- Anchor geocoder hit with megacity importance 0.9. -/
def anchorHigh : GeoLoc :=
  { latitude := 10, longitude := 20, address := "Anchor City Centre",
    importance := some (mkRat 9 10) }

/-- Anchor geocoder hit with regional importance 0.4. -/
def anchorLow : GeoLoc :=
  { latitude := 10, longitude := 20, address := "Anchor City Centre",
    importance := some (mkRat 2 5) }

/-- The sole global-search candidate of the radius scenarios. -/
def candSpot : GeoLoc :=
  { latitude := 11, longitude := 21, address := "Candidate Spot Address",
    importance := none }

/-- Scenario environment: the anchor city geocodes to the given hit, the
strict search finds nothing, the global search returns one candidate sitting
45 km from every point. -/
def envScenario (anchor : GeoLoc) : GeoEnv where
  geocodeOne := fun q => if q = "Anchor City" then .ok (some anchor) else .ok none
  geocodeMany := fun q =>
    if q = "Candidate Spot" then .ok (some [candSpot]) else .ok none
  dist := fun _ _ => 45

/-! Core lemmas on the compiled graph. -/

/-- The `await_feedback` node writes `None` into `user_feedback`. -/
lemma stepNode_await_user_feedback (O : Oracles) (s : TravelGraphState) :
    (stepNode O .await_feedback s).user_feedback = none := rfl

/-- The conditional edge after `await_feedback` always routes to `END`: it
reads the state the node just cleared. -/
lemma nextNode_after_await (O : Oracles) (s : TravelGraphState) :
    nextNode .await_feedback (stepNode O .await_feedback s) = none := by
  simp [nextNode, check_feedback, stepNode_await_user_feedback, pyTruthy]

/-- The feedback check evaluated right after the `await_feedback` update is
always false. -/
lemma check_feedback_after_await (O : Oracles) (s : TravelGraphState) :
    check_feedback (stepNode O .await_feedback s) = false := by
  simp [check_feedback, stepNode_await_user_feedback, pyTruthy]

/-- With fuel at least 4, a run from the entry point executes exactly one
pass and stops. -/
lemma runFrom_four (O : Oracles) (k : Nat) (s : TravelGraphState) :
    runFrom O (k + 4) .vibe_interpreter s =
      some (singlePassTrace, pipelinePass O s) := by
  show runFrom O (k + 1 + 1 + 1 + 1) .vibe_interpreter s = _
  simp only [runFrom, nextNode, check_feedback_after_await, singlePassTrace,
    pipelinePass, Bool.false_eq_true, if_false]

/-- Every node leaves `destination`, `duration_days`, `vibe` and
`places_to_avoid` unchanged. -/
lemma stepNode_frame (O : Oracles) (n : Node) (s : TravelGraphState) :
    (stepNode O n s).destination = s.destination ∧
    (stepNode O n s).duration_days = s.duration_days ∧
    (stepNode O n s).vibe = s.vibe ∧
    (stepNode O n s).places_to_avoid = s.places_to_avoid := by
  cases n <;> exact ⟨rfl, rfl, rfl, rfl⟩

/-- A completed run leaves `destination`, `duration_days`, `vibe` and
`places_to_avoid` unchanged. -/
lemma runFrom_preserves (O : Oracles) :
    ∀ fuel (n : Node) (s : TravelGraphState) tr sf,
      runFrom O fuel n s = some (tr, sf) →
      sf.destination = s.destination ∧
      sf.duration_days = s.duration_days ∧
      sf.vibe = s.vibe ∧
      sf.places_to_avoid = s.places_to_avoid := by
  intro fuel
  induction fuel with
  | zero => intro n s tr sf h; simp [runFrom] at h
  | succ m ih =>
    intro n s tr sf h
    simp only [runFrom] at h
    obtain ⟨f1, f2, f3, f4⟩ := stepNode_frame O n s
    split at h
    · simp only [Option.some.injEq, Prod.mk.injEq] at h
      rw [← h.2]
      exact ⟨f1, f2, f3, f4⟩
    · rename_i n2 hnx
      split at h
      · exact absurd h (by simp)
      · rename_i tr2 sf2 hr
        simp only [Option.some.injEq, Prod.mk.injEq] at h
        obtain ⟨g1, g2, g3, g4⟩ := ih n2 (stepNode O n s) tr2 sf2 hr
        rw [← h.2]
        exact ⟨g1.trans f1, g2.trans f2, g3.trans f3, g4.trans f4⟩

/-! Helper lemmas on the deduplicate-and-filter loop. -/

/-- Every place kept by the loop has a name outside `seen` and outside
`avoid`. -/
lemma dedupeKeep_mem_names (avoid : List String) :
    ∀ (l : List Place) (seen : List String) (p : Place),
      p ∈ dedupeKeep avoid l seen → p.name ∉ seen ∧ p.name ∉ avoid := by
  intro l
  induction l with
  | nil => intro seen p h; simp [dedupeKeep] at h
  | cons a t ih =>
    intro seen p h
    rw [dedupeKeep] at h
    split at h
    · rename_i hc
      rcases List.mem_cons.mp h with rfl | hmem
      · exact hc
      · have := ih (a.name :: seen) p hmem
        exact ⟨fun hs => this.1 (List.mem_cons_of_mem _ hs), this.2⟩
    · exact ih seen p h

/-- The kept list never repeats a name. -/
lemma dedupeKeep_nodup (avoid : List String) :
    ∀ (l : List Place) (seen : List String),
      ((dedupeKeep avoid l seen).map Place.name).Nodup := by
  intro l
  induction l with
  | nil => intro seen; simp [dedupeKeep]
  | cons a t ih =>
    intro seen
    rw [dedupeKeep]
    split
    · simp only [List.map_cons, List.nodup_cons]
      constructor
      · intro hmem
        obtain ⟨p, hp, hpn⟩ := List.mem_map.mp hmem
        have := (dedupeKeep_mem_names avoid t (a.name :: seen) p hp).1
        exact this (hpn ▸ List.mem_cons_self _ _)
      · exact ih (a.name :: seen)
    · exact ih seen

/-- The kept list is a sublist of the input: first-seen order is preserved. -/
lemma dedupeKeep_sublist (avoid : List String) :
    ∀ (l : List Place) (seen : List String),
      (dedupeKeep avoid l seen).Sublist l := by
  intro l
  induction l with
  | nil => intro seen; simp [dedupeKeep]
  | cons a t ih =>
    intro seen
    rw [dedupeKeep]
    split
    · exact List.Sublist.cons₂ a (ih (a.name :: seen))
    · exact List.Sublist.cons a (ih seen)

/-- A name already recorded as seen never reappears in the kept list. -/
lemma dedupeKeep_filter_seen (avoid : List String) (l : List Place)
    (seen : List String) (n : String) (hn : n ∈ seen) :
    (dedupeKeep avoid l seen).filter (fun p => p.name = n) = [] := by
  rw [List.filter_eq_nil_iff]
  intro p hp
  have := (dedupeKeep_mem_names avoid l seen p hp).1
  simp only [decide_eq_true_eq]
  intro hpn
  exact this (hpn ▸ hn)

/-- First occurrence wins: for a name that is neither seen nor avoided, the
kept entries with that name are exactly the first matching entry of the
input. -/
lemma dedupeKeep_filter_take_one (avoid : List String) :
    ∀ (l : List Place) (seen : List String) (n : String),
      n ∉ seen → n ∉ avoid →
      (dedupeKeep avoid l seen).filter (fun p => p.name = n) =
        (l.filter (fun p => p.name = n)).take 1 := by
  intro l
  induction l with
  | nil => intro seen n _ _; simp [dedupeKeep]
  | cons a t ih =>
    intro seen n hseen havoid
    rw [dedupeKeep]
    by_cases han : a.name = n
    · subst han
      rw [if_pos ⟨hseen, havoid⟩]
      rw [List.filter_cons_of_pos (by simp), List.filter_cons_of_pos (by simp)]
      rw [List.take_succ_cons, List.take_zero]
      rw [dedupeKeep_filter_seen avoid t (a.name :: seen) a.name
        (List.mem_cons_self _ _)]
    · rw [List.filter_cons_of_neg (by simp [han])]
      split
      · rw [List.filter_cons_of_neg (by simp [han])]
        exact ih (a.name :: seen) n
          (by simp only [List.mem_cons]; rintro (h | h); exact han h.symm; exact hseen h)
          havoid
      · exact ih seen n hseen havoid

/-! Helper lemmas on the geolocation resolver. -/

/-- A successful `find?` returns a match, and every earlier candidate of the
scanned list failed the predicate. -/
lemma find?_first {α : Type} (p : α → Bool) :
    ∀ (l : List α) (c : α), l.find? p = some c →
      p c = true ∧ ∃ pre post, l = pre ++ c :: post ∧ ∀ x ∈ pre, p x = false := by
  intro l
  induction l with
  | nil => intro c h; simp [List.find?] at h
  | cons a t ih =>
    intro c h
    by_cases hp : p a
    · rw [List.find?_cons_of_pos _ hp] at h
      obtain rfl := Option.some.inj h
      exact ⟨hp, [], t, rfl, by simp⟩
    · rw [List.find?_cons_of_neg _ (by simpa using hp)] at h
      obtain ⟨hc, pre, post, rfl, hall⟩ := ih c h
      refine ⟨hc, a :: pre, post, rfl, ?_⟩
      intro x hx
      rcases List.mem_cons.mp hx with rfl | hx2
      · simpa using hp
      · exact hall x hx2

/-- The resolver output is either empty or the singleton place named by the
query. -/
lemma query_places_shape (env : GeoEnv) (q l : String) :
    query_places_nominatim env q l = [] ∨
      ∃ loc : GeoLoc, query_places_nominatim env q l = [mkPlace q loc] := by
  unfold query_places_nominatim queryPlacesCore
  cases h1 : env.geocodeOne l with
  | error e => simp [h1]
  | ok o1 =>
    cases o1 with
    | none => simp [h1]
    | some city =>
      cases h2 : env.geocodeOne (q ++ ", " ++ l) with
      | error e => simp [h1, h2]
      | ok o2 =>
        cases o2 with
        | some strict => right; exact ⟨strict, by simp [h1, h2]⟩
        | none =>
          cases h3 : env.geocodeMany q with
          | error e => simp [h1, h2, h3]
          | ok o3 =>
            cases o3 with
            | none => simp [h1, h2, h3]
            | some cands =>
              cases h4 : (cands.take 5).find? (withinRadius env
                  (city.latitude, city.longitude)
                  (radiusLimit (city.importance.getD (mkRat 1 2)))) with
              | none => simp [h1, h2, h3, h4]
              | some c => right; exact ⟨c, by simp [h1, h2, h3, h4]⟩

/-- Every place produced by the tool-call loop comes from one elected
`query_places_nominatim` call, and carries the query of that call as its name. -/
lemma allToolPlaces_mem (O : Oracles) :
    ∀ (calls : List ToolCallRec) (p : Place), p ∈ allToolPlaces O calls →
      ∃ tc ∈ calls, tc.tool = "query_places_nominatim" ∧
        p ∈ query_places_nominatim O.geo tc.query tc.location_name := by
  intro calls
  induction calls with
  | nil => intro p h; simp [allToolPlaces] at h
  | cons tc rest ih =>
    intro p h
    rw [allToolPlaces] at h
    split at h
    · rename_i htool
      rcases List.mem_append.mp h with hl | hr
      · exact ⟨tc, List.mem_cons_self _ _, htool, hl⟩
      · obtain ⟨tc2, htc2, h1, h2⟩ := ih p hr
        exact ⟨tc2, List.mem_cons_of_mem _ htc2, h1, h2⟩
    · obtain ⟨tc2, htc2, h1, h2⟩ := ih p h
      exact ⟨tc2, List.mem_cons_of_mem _ htc2, h1, h2⟩

/-- A member of the resolver output is the query-named place. -/
lemma query_places_mem_name (env : GeoEnv) (q l : String) (p : Place)
    (hp : p ∈ query_places_nominatim env q l) : p.name = q := by
  rcases query_places_shape env q l with h | ⟨loc, h⟩
  · rw [h] at hp; simp at hp
  · rw [h] at hp
    obtain rfl := List.mem_singleton.mp hp
    rfl

/-- Convenience wrapper of `runFrom_four` at the workflow entry point. -/
lemma runWorkflow_four (O : Oracles) (k : Nat) (s : TravelGraphState) :
    runWorkflow O (k + 4) s = some (singlePassTrace, pipelinePass O s) :=
  runFrom_four O k s

/-! Claim theorems. -/

/-- C1 (counterexample): in a concrete run the state entering the Feedback
Gate carries the non-empty feedback "Start", the gate clears it, and yet
control does not loop back to the Keyword Synthesizer: the trace visits
`vibe_interpreter` exactly once and the run terminates. This falsifies the
claim that non-empty feedback at the gate loops control back. -/
theorem gate_nonempty_feedback_no_loop_cex :
    pyTruthy (stepNode demoOracles .itinerary_agent (stepNode demoOracles
      .search_agent (stepNode demoOracles .vibe_interpreter
        demoState))).user_feedback = true ∧
    runWorkflow demoOracles 10 demoState =
      some (singlePassTrace, pipelinePass demoOracles demoState) ∧
    singlePassTrace.count .vibe_interpreter = 1 ∧
    (pipelinePass demoOracles demoState).user_feedback = none :=
  ⟨by decide, rfl, by decide, rfl⟩

/-- C1 (amended): after the Itinerary Composer, the `await_feedback` node
first writes `None` into `user_feedback`; the conditional check then inspects
the already-cleared state, so it always routes to `END`. The run therefore
always terminates with feedback cleared, and the loop back to the Keyword
Synthesizer is never taken, whatever the feedback was when the gate was
entered. -/
theorem gate_clears_before_inspection (O : Oracles) (s : TravelGraphState) :
    (stepNode O .await_feedback s).user_feedback = none ∧
    check_feedback (stepNode O .await_feedback s) = false ∧
    nextNode .await_feedback (stepNode O .await_feedback s) = none :=
  ⟨stepNode_await_user_feedback O s, check_feedback_after_await O s,
    nextNode_after_await O s⟩

/-- C2: with enough fuel (the interpreter loop of `app.stream` is unbounded;
4 steps suffice), every invocation of the engine — in particular the start
path seeding `user_feedback = "Start"` and the resume path seeding the
feedback of the caller — executes the four pipeline nodes exactly once each in
order, terminates, and returns a state whose `user_feedback` is cleared. -/
theorem run_exactly_one_pass (O : Oracles) (fuel : Nat) (s : TravelGraphState)
    (hf : 4 ≤ fuel) :
    runWorkflow O fuel s = some (singlePassTrace, pipelinePass O s) ∧
    (∀ n : Node, singlePassTrace.count n = 1) ∧
    (pipelinePass O s).user_feedback = none ∧
    (∀ req : PlanRequest, ∃ st : TravelGraphState,
      start_plan O fuel req = some (st.itinerary_draft, st) ∧
      st.user_feedback = none) ∧
    (∀ req : ResumeRequest, ∃ st : TravelGraphState,
      resume_plan O fuel req = some (st.itinerary_draft, st) ∧
      st.user_feedback = none) := by
  obtain ⟨k, rfl⟩ : ∃ k, fuel = k + 4 := ⟨fuel - 4, by omega⟩
  refine ⟨runWorkflow_four O k s, ?_, stepNode_await_user_feedback O _, ?_, ?_⟩
  · intro n; cases n <;> decide
  · intro req
    simp only [start_plan]
    rw [runWorkflow_four]
    exact ⟨pipelinePass O _, rfl, stepNode_await_user_feedback O _⟩
  · intro req
    simp only [resume_plan]
    rw [runWorkflow_four]
    exact ⟨pipelinePass O _, rfl, stepNode_await_user_feedback O _⟩

/-- C2 (witness): the single-pass theorem instantiated at the concrete demo
oracles and start state with fuel 4. -/
theorem run_exactly_one_pass_witness :
    runWorkflow demoOracles 4 demoState =
      some (singlePassTrace, pipelinePass demoOracles demoState) ∧
    (pipelinePass demoOracles demoState).user_feedback = none := by
  have h := run_exactly_one_pass demoOracles 4 demoState (by decide)
  exact ⟨h.1, h.2.2.1⟩

/-- C4: the Keyword Synthesizer computes a target count of exactly
`max(10, duration_days * 4)` (10 for one day, 12 for three, 20 for five, at
least 10 for every positive duration) and stores the keyword list returned
by the structured generator unchanged — no truncation or padding. -/
theorem keyword_target (O : Oracles) (s : TravelGraphState) :
    target_count s = max 10 (s.duration_days * 4) ∧
    (s.duration_days = 1 → target_count s = 10) ∧
    (s.duration_days = 3 → target_count s = 12) ∧
    (s.duration_days = 5 → target_count s = 20) ∧
    (0 < s.duration_days → 10 ≤ target_count s) ∧
    (stepNode O .vibe_interpreter s).keywords =
      O.structuredKeywords (vibePrompt s) := by
  refine ⟨rfl, ?_, ?_, ?_, ?_, rfl⟩ <;> intro h
  · simp [target_count, h]
  · simp [target_count, h]
  · simp [target_count, h]
  · exact le_max_left _ _

/-- C4 (witness): at the demo state (duration 3 days) the target count is 12
and the node stores the generator output as-is. -/
theorem keyword_target_witness :
    target_count demoState = 12 ∧
    (stepNode demoOracles .vibe_interpreter demoState).keywords =
      ["Quiet Beach", "Local Market"] := by
  have h := keyword_target demoOracles demoState
  exact ⟨h.2.2.1 rfl, h.2.2.2.2.2.trans rfl⟩

/-- C9: every node merges only its declared output fields by shallow field
replacement: `destination`, `duration_days`, `vibe` and `places_to_avoid` are
untouched by all four nodes, each node leaves every field outside its own
output dict unchanged, and a completed run preserves `destination`,
`duration_days` and `vibe`. -/
theorem node_frame (O : Oracles) :
    (∀ (n : Node) (s : TravelGraphState),
      (stepNode O n s).destination = s.destination ∧
      (stepNode O n s).duration_days = s.duration_days ∧
      (stepNode O n s).vibe = s.vibe ∧
      (stepNode O n s).places_to_avoid = s.places_to_avoid) ∧
    (∀ s : TravelGraphState,
      (stepNode O .vibe_interpreter s).user_feedback = s.user_feedback ∧
      (stepNode O .vibe_interpreter s).search_results = s.search_results ∧
      (stepNode O .vibe_interpreter s).itinerary_draft = s.itinerary_draft) ∧
    (∀ s : TravelGraphState,
      (stepNode O .search_agent s).user_feedback = s.user_feedback ∧
      (stepNode O .search_agent s).keywords = s.keywords ∧
      (stepNode O .search_agent s).itinerary_draft = s.itinerary_draft) ∧
    (∀ s : TravelGraphState,
      (stepNode O .itinerary_agent s).user_feedback = s.user_feedback ∧
      (stepNode O .itinerary_agent s).keywords = s.keywords ∧
      (stepNode O .itinerary_agent s).search_results = s.search_results) ∧
    (∀ s : TravelGraphState,
      (stepNode O .await_feedback s).keywords = s.keywords ∧
      (stepNode O .await_feedback s).search_results = s.search_results ∧
      (stepNode O .await_feedback s).itinerary_draft = s.itinerary_draft) ∧
    (∀ (fuel : Nat) (s : TravelGraphState) tr sf,
      runWorkflow O fuel s = some (tr, sf) →
      sf.destination = s.destination ∧
      sf.duration_days = s.duration_days ∧
      sf.vibe = s.vibe) := by
  refine ⟨stepNode_frame O, fun s => ⟨rfl, rfl, rfl⟩, fun s => ⟨rfl, rfl, rfl⟩,
    fun s => ⟨rfl, rfl, rfl⟩, fun s => ⟨rfl, rfl, rfl⟩, ?_⟩
  intro fuel s tr sf h
  obtain ⟨h1, h2, h3, _⟩ := runFrom_preserves O fuel .vibe_interpreter s tr sf h
  exact ⟨h1, h2, h3⟩

/-- C9 (witness): the frame theorem applied to a concrete completed run: the
demo run keeps destination "Paris", duration 3 and vibe "chill". -/
theorem node_frame_witness :
    (stepNode demoOracles .vibe_interpreter demoState).destination = "Paris" ∧
    (pipelinePass demoOracles demoState).destination = "Paris" ∧
    (pipelinePass demoOracles demoState).duration_days = 3 ∧
    (pipelinePass demoOracles demoState).vibe = "chill" := by
  have h := node_frame demoOracles
  obtain ⟨h1, h2, h3⟩ := h.2.2.2.2.2 4 demoState singlePassTrace
    (pipelinePass demoOracles demoState) rfl
  exact ⟨((h.1 .vibe_interpreter demoState).1).trans rfl, h1.trans rfl,
    h2.trans rfl, h3.trans rfl⟩

/-- The `search_agent` node stores exactly the deduplicated-and-filtered
concatenation of the outputs of the elected tool calls. -/
lemma search_agent_results_eq (O : Oracles) (s : TravelGraphState) :
    (stepNode O .search_agent s).search_results =
      dedupeKeep s.places_to_avoid
        (allToolPlaces O (O.geminiToolCalls
          (searchPrompt (location_fixed s.destination) s.keywords))) [] := rfl

/-- C3: for every oracle behaviour, keyword list, destination and avoid set,
the stored result of the Place Search Orchestrator is the deduplication of
the collected tool outputs: no two entries share a name, no entry has a name in
`places_to_avoid`, the result is a sublist of the collected outputs
(first-seen order), and for every non-avoided name the kept entries are
exactly the first occurrence of that name. -/
theorem search_dedup_filter (O : Oracles) (s : TravelGraphState) :
    ∃ all : List Place,
      all = allToolPlaces O (O.geminiToolCalls
        (searchPrompt (location_fixed s.destination) s.keywords)) ∧
      (stepNode O .search_agent s).search_results =
        dedupeKeep s.places_to_avoid all [] ∧
      (((stepNode O .search_agent s).search_results).map Place.name).Nodup ∧
      (∀ p ∈ (stepNode O .search_agent s).search_results,
        p.name ∉ s.places_to_avoid) ∧
      ((stepNode O .search_agent s).search_results).Sublist all ∧
      (∀ n : String, n ∉ s.places_to_avoid →
        ((stepNode O .search_agent s).search_results).filter
            (fun p => p.name = n) =
          (all.filter (fun p => p.name = n)).take 1) := by
  refine ⟨_, rfl, search_agent_results_eq O s, ?_, ?_, ?_, ?_⟩
  · rw [search_agent_results_eq]
    exact dedupeKeep_nodup _ _ []
  · intro p hp
    rw [search_agent_results_eq] at hp
    exact (dedupeKeep_mem_names _ _ [] p hp).2
  · rw [search_agent_results_eq]
    exact dedupeKeep_sublist _ _ []
  · intro n hn
    rw [search_agent_results_eq]
    exact dedupeKeep_filter_take_one _ _ [] n (by simp) hn

/-- Geodata for the orchestrator witness: the anchor "Goa" geocodes, both
keywords resolve via the strict search. -/
def searchGeo : GeoEnv where
  geocodeOne := fun q =>
    if q = "Goa" then
      .ok (some { latitude := 15, longitude := 74, address := "Goa, India",
                  importance := some (mkRat 1 2) })
    else if q = "Quiet Beach, Goa" then
      .ok (some { latitude := 15, longitude := 74,
                  address := "Quiet Beach, Goa, India", importance := none })
    else if q = "Old Fort, Goa" then
      .ok (some { latitude := 15, longitude := 73,
                  address := "Old Fort, Goa, India", importance := none })
    else .ok none
  geocodeMany := fun _ => .ok none
  dist := fun _ _ => 0

/-- Concrete oracles electing a duplicated call and an avoided call. -/
def searchOracles : Oracles where
  geo := searchGeo
  structuredKeywords := fun _ => ["Quiet Beach", "Old Fort"]
  geminiToolCalls := fun _ =>
    [{ tool := "query_places_nominatim", query := "Quiet Beach",
       location_name := "Goa" },
     { tool := "query_places_nominatim", query := "Quiet Beach",
       location_name := "Goa" },
     { tool := "query_places_nominatim", query := "Old Fort",
       location_name := "Goa" }]
  heroText := fun _ => "Day 1: beaches."

/-- Concrete orchestrator input state avoiding "Old Fort". -/
def searchState : TravelGraphState :=
  { demoState with
    destination := "Goa"
    places_to_avoid := ["Old Fort"]
    keywords := ["Quiet Beach", "Old Fort"] }

/-- C3 (witness): on the concrete inputs the duplicate "Quiet Beach" hit and
the avoided "Old Fort" hit are dropped, and the filter characterisation holds
at the name "Quiet Beach". -/
theorem search_dedup_filter_witness :
    (stepNode searchOracles .search_agent searchState).search_results =
      [{ name := "Quiet Beach", address := "Quiet Beach, Goa, India",
         coordinates := [74, 15] }] ∧
    (((stepNode searchOracles .search_agent searchState).search_results).map
      Place.name).Nodup ∧
    (∀ p ∈ (stepNode searchOracles .search_agent searchState).search_results,
      p.name ∉ searchState.places_to_avoid) ∧
    ((stepNode searchOracles .search_agent searchState).search_results).filter
        (fun p => p.name = "Quiet Beach") =
      ((allToolPlaces searchOracles (searchOracles.geminiToolCalls
          (searchPrompt (location_fixed searchState.destination)
            searchState.keywords))).filter
        (fun p => p.name = "Quiet Beach")).take 1 := by
  obtain ⟨all, hall, _, hnodup, havoid, _, hfilter⟩ :=
    search_dedup_filter searchOracles searchState
  have hq := hfilter "Quiet Beach" (by decide)
  rw [hall] at hq
  exact ⟨by decide, hnodup, havoid, hq⟩

/-- All nodes leave `places_to_avoid` exactly as they found it, so the full
pass does too. -/
lemma pipelinePass_places_to_avoid (O : Oracles) (s : TravelGraphState) :
    (pipelinePass O s).places_to_avoid = s.places_to_avoid := by
  unfold pipelinePass
  rw [(stepNode_frame O .await_feedback _).2.2.2,
      (stepNode_frame O .itinerary_agent _).2.2.2,
      (stepNode_frame O .search_agent _).2.2.2,
      (stepNode_frame O .vibe_interpreter _).2.2.2]

/-- A resume request whose `place_to_avoid` is present but the empty string. -/
def resumeReqEmpty : ResumeRequest where
  current_state :=
    { demoState with places_to_avoid := ["Crowded Mall"], user_feedback := none }
  user_feedback := "More food options"
  place_to_avoid := some ""

/-- C8 (counterexample): the claim says resume-plan appends `place_to_avoid`
exactly when it is present. Here it is present (`some ""`), yet the Python
truthiness test skips the append: the returned `places_to_avoid` is unchanged. -/
theorem resume_present_not_appended_cex :
    resumeReqEmpty.place_to_avoid = some "" ∧
    (resume_plan demoOracles 4 resumeReqEmpty).map
        (fun r => r.2.places_to_avoid) =
      some ["Crowded Mall"] :=
  ⟨rfl, by decide⟩

/-- C8 (amended): resume-plan appends `place_to_avoid` exactly when it is
present and non-empty (Python-truthy); `places_to_avoid` never loses an
element — the seeded list extends the list of the caller, every prior element
survives into the returned state, and no workflow node modifies the field. -/
theorem resume_avoid_monotone (O : Oracles) (fuel : Nat) (req : ResumeRequest)
    (hf : 4 ≤ fuel) :
    ∃ st : TravelGraphState,
      resume_plan O fuel req = some (st.itinerary_draft, st) ∧
      st.places_to_avoid = req.current_state.places_to_avoid ++
        (if pyTruthy req.place_to_avoid then [req.place_to_avoid.getD ""]
         else []) ∧
      (∀ x ∈ req.current_state.places_to_avoid, x ∈ st.places_to_avoid) ∧
      (∀ p : String, req.place_to_avoid = some p → p ≠ "" →
        st.places_to_avoid = req.current_state.places_to_avoid ++ [p]) ∧
      (∀ (n : Node) (s : TravelGraphState),
        (stepNode O n s).places_to_avoid = s.places_to_avoid) := by
  obtain ⟨k, rfl⟩ : ∃ k, fuel = k + 4 := ⟨fuel - 4, by omega⟩
  simp only [resume_plan]
  rw [runWorkflow_four]
  refine ⟨pipelinePass O _, rfl, ?_, ?_, ?_,
    fun n s => (stepNode_frame O n s).2.2.2⟩
  · rw [pipelinePass_places_to_avoid]
    by_cases h : pyTruthy req.place_to_avoid <;> simp [h]
  · intro x hx
    rw [pipelinePass_places_to_avoid]
    by_cases h : pyTruthy req.place_to_avoid <;> simp [h, hx]
  · intro p hp hne
    rw [pipelinePass_places_to_avoid, hp]
    simp [pyTruthy, hne]

/-- A resume request carrying a real place to avoid. -/
def resumeReqAvoid : ResumeRequest where
  current_state :=
    { demoState with places_to_avoid := ["Crowded Mall"], user_feedback := none }
  user_feedback := "Remove the shrine"
  place_to_avoid := some "Fushimi Inari"

/-- C8 (witness): resuming with `place_to_avoid = "Fushimi Inari"` over prior
list `["Crowded Mall"]` yields `["Crowded Mall", "Fushimi Inari"]`. -/
theorem resume_avoid_monotone_witness :
    ∃ st : TravelGraphState,
      resume_plan demoOracles 4 resumeReqAvoid = some (st.itinerary_draft, st) ∧
      st.places_to_avoid = ["Crowded Mall", "Fushimi Inari"] := by
  obtain ⟨st, h1, _, _, h4, _⟩ :=
    resume_avoid_monotone demoOracles 4 resumeReqAvoid (by decide)
  refine ⟨st, h1, ?_⟩
  rw [h4 "Fushimi Inari" rfl (by decide)]
  rfl

/-- The resolver reads only the first 5 global-search candidates: two
environments with the same single-result geocoding and distance function, and
candidate lists agreeing on their first 5 entries, are indistinguishable. -/
lemma core_take5 (env1 env2 : GeoEnv) (q l : String)
    (hone : env1.geocodeOne = env2.geocodeOne)
    (hdist : env1.dist = env2.dist)
    (hmany : ∀ q2, Except.map (Option.map (List.take 5)) (env1.geocodeMany q2) =
      Except.map (Option.map (List.take 5)) (env2.geocodeMany q2)) :
    queryPlacesCore env1 q l = queryPlacesCore env2 q l := by
  unfold queryPlacesCore withinRadius
  rw [hone, hdist]
  cases hc : env2.geocodeOne l with
  | error e => rfl
  | ok o1 =>
    cases o1 with
    | none => rfl
    | some city =>
      cases hs : env2.geocodeOne (q ++ ", " ++ l) with
      | error e => rfl
      | ok o2 =>
        cases o2 with
        | some strict => rfl
        | none =>
          have h := hmany q
          cases e1 : env1.geocodeMany q with
          | error u =>
            cases e2 : env2.geocodeMany q with
            | error u2 => cases u; cases u2; rfl
            | ok o3 => rw [e1, e2] at h; simp [Except.map] at h
          | ok o3 =>
            cases e2 : env2.geocodeMany q with
            | error u2 => rw [e1, e2] at h; simp [Except.map] at h
            | ok o4 =>
              rw [e1, e2] at h
              simp only [Except.map] at h
              cases o3 with
              | none =>
                cases o4 with
                | none => rfl
                | some cs => simp at h
              | some cs3 =>
                cases o4 with
                | none => simp at h
                | some cs4 =>
                  simp at h
                  dsimp only
                  rw [h]

/-- C5: importance strictly above 0.75 classifies the anchor megacity with a
30 km limit and otherwise regional hub with 200 km; a successful fallback
scan accepts a candidate within the limit with every earlier scanned
candidate beyond it; only the first 5 candidates are ever consulted; and the
two spec scenarios hold — importance 0.9 with a sole candidate at 45 km
returns nothing, importance 0.4 with the same candidate returns it. -/
theorem radius_classification :
    (∀ imp : Rat, mkRat 3 4 < imp → radiusLimit imp = 30) ∧
    (∀ imp : Rat, imp ≤ mkRat 3 4 → radiusLimit imp = 200) ∧
    (∀ (env : GeoEnv) (cc : Rat × Rat) (rl : Rat) (cs : List GeoLoc)
        (c : GeoLoc),
      (cs.take 5).find? (withinRadius env cc rl) = some c →
      env.dist cc (c.latitude, c.longitude) ≤ rl ∧
      ∃ pre post, cs.take 5 = pre ++ c :: post ∧
        ∀ x ∈ pre, ¬ env.dist cc (x.latitude, x.longitude) ≤ rl) ∧
    (∀ (env1 env2 : GeoEnv) (q l : String),
      env1.geocodeOne = env2.geocodeOne → env1.dist = env2.dist →
      (∀ q2, Except.map (Option.map (List.take 5)) (env1.geocodeMany q2) =
        Except.map (Option.map (List.take 5)) (env2.geocodeMany q2)) →
      query_places_nominatim env1 q l = query_places_nominatim env2 q l) ∧
    query_places_nominatim (envScenario anchorHigh) "Candidate Spot"
      "Anchor City" = [] ∧
    query_places_nominatim (envScenario anchorLow) "Candidate Spot"
      "Anchor City" =
      [{ name := "Candidate Spot", address := "Candidate Spot Address",
         coordinates := [21, 11] }] := by
  refine ⟨?_, ?_, ?_, ?_, by decide, by decide⟩
  · intro imp h; simp [radiusLimit, h]
  · intro imp h; simp [radiusLimit, not_lt.mpr h]
  · intro env cc rl cs c h
    obtain ⟨hc, pre, post, heq, hall⟩ := find?_first _ _ _ h
    refine ⟨?_, pre, post, heq, ?_⟩
    · simpa [withinRadius] using hc
    · intro x hx
      simpa [withinRadius] using hall x hx
  · intro env1 env2 q l hone hdist hmany
    unfold query_places_nominatim
    rw [core_take5 env1 env2 q l hone hdist hmany]

/-- Five copies of the scenario candidate. -/
def fiveCands : List GeoLoc :=
  [candSpot, candSpot, candSpot, candSpot, candSpot]

/-- Environment whose global search yields exactly 5 candidates. -/
def envFive : GeoEnv where
  geocodeOne := fun q =>
    if q = "Anchor City" then .ok (some anchorHigh) else .ok none
  geocodeMany := fun q =>
    if q = "Candidate Spot" then .ok (some fiveCands) else .ok none
  dist := fun _ _ => 45

/-- The same environment with a sixth candidate appended. -/
def envSix : GeoEnv where
  geocodeOne := fun q =>
    if q = "Anchor City" then .ok (some anchorHigh) else .ok none
  geocodeMany := fun q =>
    if q = "Candidate Spot" then .ok (some (fiveCands ++ [candSpot]))
    else .ok none
  dist := fun _ _ => 45

/-- C5 (witness): the classification at importance 0.9 and 0.4, the
first-acceptable characterisation on the concrete regional scenario, and the
take-5 insensitivity between the 5- and 6-candidate environments. -/
theorem radius_classification_witness :
    radiusLimit (mkRat 9 10) = 30 ∧
    radiusLimit (mkRat 2 5) = 200 ∧
    (envScenario anchorLow).dist (anchorLow.latitude, anchorLow.longitude)
      (candSpot.latitude, candSpot.longitude) ≤ 200 ∧
    query_places_nominatim envFive "Candidate Spot" "Anchor City" =
      query_places_nominatim envSix "Candidate Spot" "Anchor City" := by
  refine ⟨radius_classification.1 (mkRat 9 10) (by decide),
    radius_classification.2.1 (mkRat 2 5) (by decide), ?_, ?_⟩
  · exact (radius_classification.2.2.1 (envScenario anchorLow)
      (anchorLow.latitude, anchorLow.longitude) 200 [candSpot] candSpot
      (by decide)).1
  · refine radius_classification.2.2.2.1 envFive envSix "Candidate Spot"
      "Anchor City" rfl rfl ?_
    intro q2
    by_cases h : q2 = "Candidate Spot" <;>
      simp [envFive, envSix, h, Except.map, fiveCands]

/-- C6: when the anchor geocodes and the strict search
`"{query}, {location_name}"` returns a hit, that hit is accepted immediately:
the result is the query-named place built from the strict hit, for every
distance function and every behaviour of the multi-result geocoder — no
distance check is applied and the global-search fallback is never consulted. -/
theorem strict_short_circuit (env : GeoEnv) (q l : String) (city loc : GeoLoc)
    (hcity : env.geocodeOne l = .ok (some city))
    (hstrict : env.geocodeOne (q ++ ", " ++ l) = .ok (some loc)) :
    query_places_nominatim env q l = [mkPlace q loc] := by
  unfold query_places_nominatim queryPlacesCore
  rw [hcity, hstrict]

/-- The faraway strict hit of the short-circuit witness. -/
def farMuseum : GeoLoc :=
  { latitude := 50, longitude := 60, address := "Far Museum, Remote Valley",
    importance := none }

/-- Witness environment: the strict search succeeds, every distance is huge,
and the multi-result geocoder raises if it is ever consulted. -/
def envStrictFar : GeoEnv where
  geocodeOne := fun s =>
    if s = "Anchor City" then .ok (some anchorHigh)
    else if s = "Far Museum, Anchor City" then .ok (some farMuseum)
    else .ok none
  geocodeMany := fun _ => .error ()
  dist := fun _ _ => 99999

/-- C6 (witness): the strict hit is returned even though its distance
(99999 km) dwarfs the 30 km megacity limit and the fallback geocoder would
raise if consulted. -/
theorem strict_short_circuit_witness :
    query_places_nominatim envStrictFar "Far Museum" "Anchor City" =
      [{ name := "Far Museum", address := "Far Museum, Remote Valley",
         coordinates := [60, 50] }] := by
  have h := strict_short_circuit envStrictFar "Far Museum" "Anchor City"
    anchorHigh farMuseum rfl rfl
  simpa [mkPlace, farMuseum] using h

/-- C7: the resolver never propagates a failure: an unresolvable anchor, a
raised anchor lookup, a raised strict lookup, a raised or empty global
search, and a global search whose first 5 candidates all fail the radius
check each produce the empty list. -/
theorem resolver_no_raise (env : GeoEnv) (q l : String) :
    (env.geocodeOne l = .error () → query_places_nominatim env q l = []) ∧
    (env.geocodeOne l = .ok none → query_places_nominatim env q l = []) ∧
    (∀ city : GeoLoc, env.geocodeOne l = .ok (some city) →
      env.geocodeOne (q ++ ", " ++ l) = .error () →
      query_places_nominatim env q l = []) ∧
    (∀ city : GeoLoc, env.geocodeOne l = .ok (some city) →
      env.geocodeOne (q ++ ", " ++ l) = .ok none →
      env.geocodeMany q = .error () →
      query_places_nominatim env q l = []) ∧
    (∀ city : GeoLoc, env.geocodeOne l = .ok (some city) →
      env.geocodeOne (q ++ ", " ++ l) = .ok none →
      env.geocodeMany q = .ok none →
      query_places_nominatim env q l = []) ∧
    (∀ (city : GeoLoc) (cands : List GeoLoc),
      env.geocodeOne l = .ok (some city) →
      env.geocodeOne (q ++ ", " ++ l) = .ok none →
      env.geocodeMany q = .ok (some cands) →
      (∀ c ∈ cands.take 5,
        withinRadius env (city.latitude, city.longitude)
          (radiusLimit (city.importance.getD (mkRat 1 2))) c = false) →
      query_places_nominatim env q l = []) := by
  refine ⟨?_, ?_, ?_, ?_, ?_, ?_⟩
  · intro h1
    unfold query_places_nominatim queryPlacesCore
    rw [h1]
  · intro h1
    unfold query_places_nominatim queryPlacesCore
    rw [h1]
  · intro city h1 h2
    unfold query_places_nominatim queryPlacesCore
    rw [h1, h2]
  · intro city h1 h2 h3
    unfold query_places_nominatim queryPlacesCore
    rw [h1, h2, h3]
  · intro city h1 h2 h3
    unfold query_places_nominatim queryPlacesCore
    rw [h1, h2, h3]
  · intro city cands h1 h2 h3 h4
    have hfind : (cands.take 5).find? (withinRadius env
        (city.latitude, city.longitude)
        (radiusLimit (city.importance.getD (mkRat 1 2)))) = none := by
      rw [List.find?_eq_none]
      intro x hx
      simp [h4 x hx]
    unfold query_places_nominatim queryPlacesCore
    rw [h1, h2, h3]
    simp only [hfind]

/-- An environment in which every geocoder call raises. -/
def envAllError : GeoEnv where
  geocodeOne := fun _ => .error ()
  geocodeMany := fun _ => .error ()
  dist := fun _ _ => 0

/-- C7 (witness): a raising geocoder, a geocoder that finds nothing, and the
megacity scenario whose only candidate is out of radius all yield the empty
list rather than an error. -/
theorem resolver_no_raise_witness :
    query_places_nominatim envAllError "Quiet Beach" "Goa" = [] ∧
    query_places_nominatim trivialGeo "Quiet Beach" "Goa" = [] ∧
    query_places_nominatim (envScenario anchorHigh) "Candidate Spot"
      "Anchor City" = [] := by
  refine ⟨(resolver_no_raise envAllError "Quiet Beach" "Goa").1 rfl,
    (resolver_no_raise trivialGeo "Quiet Beach" "Goa").2.1 rfl, ?_⟩
  exact (resolver_no_raise (envScenario anchorHigh) "Candidate Spot"
    "Anchor City").2.2.2.2.2 anchorHigh [candSpot] rfl rfl rfl (by decide)

/-- C10: the Geolocation Resolver always returns at most one place; a
returned place carries the input query verbatim as its `name`, not the
geocoder-reported place name; consequently every name in the orchestrator
`search_results` — the names its deduplication and avoid-filter compare — is
the query string of one of the elected tool calls, i.e. a search keyword. -/
theorem resolver_singleton_query_name :
    (∀ (env : GeoEnv) (q l : String),
      (query_places_nominatim env q l).length ≤ 1) ∧
    (∀ (env : GeoEnv) (q l : String) (p : Place),
      p ∈ query_places_nominatim env q l → p.name = q) ∧
    (∀ (O : Oracles) (s : TravelGraphState) (p : Place),
      p ∈ (stepNode O .search_agent s).search_results →
      ∃ tc ∈ O.geminiToolCalls
          (searchPrompt (location_fixed s.destination) s.keywords),
        tc.tool = "query_places_nominatim" ∧ p.name = tc.query) := by
  refine ⟨?_, query_places_mem_name, ?_⟩
  · intro env q l
    rcases query_places_shape env q l with h | ⟨loc, h⟩ <;> simp [h]
  · intro O s p hp
    rw [search_agent_results_eq] at hp
    obtain ⟨tc, htc, hname, hpin⟩ :=
      allToolPlaces_mem O _ p ((dedupeKeep_sublist _ _ _).subset hp)
    exact ⟨tc, htc, hname, query_places_mem_name _ _ _ p hpin⟩

/-- C10 (witness): the regional scenario returns one place named by the
query, and in the concrete orchestrator run the name of the kept place is the
query of an elected tool call. -/
theorem resolver_singleton_query_name_witness :
    (query_places_nominatim (envScenario anchorLow) "Candidate Spot"
      "Anchor City").length ≤ 1 ∧
    (∀ p ∈ query_places_nominatim (envScenario anchorLow) "Candidate Spot"
      "Anchor City", p.name = "Candidate Spot") ∧
    ∃ tc ∈ searchOracles.geminiToolCalls
        (searchPrompt (location_fixed searchState.destination)
          searchState.keywords),
      tc.tool = "query_places_nominatim" ∧
      ({ name := "Quiet Beach", address := "Quiet Beach, Goa, India",
         coordinates := [74, 15] } : Place).name = tc.query := by
  refine ⟨resolver_singleton_query_name.1 (envScenario anchorLow)
      "Candidate Spot" "Anchor City",
    fun p hp => resolver_singleton_query_name.2.1 (envScenario anchorLow)
      "Candidate Spot" "Anchor City" p hp, ?_⟩
  exact resolver_singleton_query_name.2.2 searchOracles searchState _
    (by decide)

end WanderLust
